import Mathlib

/-!
Shallow embedding of the sqlitepp library (C++ wrapper around SQLite3).

The repository has two variants of the implementation:
* `src/src/sqlitepp/sqlitepp.cc` with header `src/include/sqlitepp/sqlitepp.h`
  (Statement + ResultSet, shared ownership via `std::shared_ptr` and a
  `std::weak_ptr` instance pointer), and
* `src/src/sqlitepp.cpp` with header `src/include/sqlitepp.h`
  (reads live on Statement itself; the Database destructor differs).

The SQLite3 engine is an external collaborator (spec section 6); every engine
call's outcome is passed to the model functions as an explicit oracle
argument.  C++ exceptions are modelled with `Except`: each mutating method
returns the thrown-or-returned value together with the object state after the
call (on a throw the fields hold whatever they held when the throw happened,
which in this code is always the entry state, since no field is mutated before
any throw).
-/

namespace Sqlitepp

/-- SQLite3 result code `SQLITE_OK`. -/
def SQLITE_OK : Int := 0

/-- SQLite3 result code `SQLITE_ERROR`. -/
def SQLITE_ERROR : Int := 1

/-- SQLite3 result code `SQLITE_BUSY`. -/
def SQLITE_BUSY : Int := 5

/-- SQLite3 result code `SQLITE_NOMEM`. -/
def SQLITE_NOMEM : Int := 7

/-- SQLite3 result code `SQLITE_RANGE`. -/
def SQLITE_RANGE : Int := 25

/-- SQLite3 result code `SQLITE_ROW`. -/
def SQLITE_ROW : Int := 100

/-- SQLite3 result code `SQLITE_DONE`. -/
def SQLITE_DONE : Int := 101

/-- Stand-in for the engine's `sqlite3_errstr` (the engine is an opaque
collaborator; only the fact that the default message is derived from the code
matters to the wrapper). -/
def sqlite3_errstr (code : Int) : String :=
  "SQLite3 result code " ++ toString code

/-- Exceptions thrown by the wrapper, one constructor per C++ exception type
used by the source: `std::logic_error` (invalid state), `std::invalid_argument`,
`std::out_of_range`, plain `std::runtime_error` (allocation failures and null
handles), and `sqlitepp::DatabaseError` (which stores the engine result code
and a message). -/
inductive Err where
  | logicError (msg : String)
  | invalidArgument (msg : String)
  | outOfRange (msg : String)
  | runtimeError (msg : String)
  | databaseError (code : Int) (msg : String)
deriving DecidableEq

/-- `DatabaseError::getErrorMessage`: the `what()` text built from code and
message. -/
def getErrorMessage (errorCode : Int) (errorMessage : String) : String :=
  "Caught SQLite3 error " ++ toString errorCode ++ " meaning: " ++ errorMessage

/-- `Openable::requireOpen`: throws `std::logic_error` with the owner's class
name when the open flag is false. -/
def requireOpen (isOpen : Bool) (name : String) : Except Err Unit :=
  if isOpen = false then .error (.logicError (name ++ " is not open.")) else .ok ()

/-- The fields of a `sqlitepp::Statement` that the wrapper itself maintains:
the `Openable` flag `m_open` and the row flag `m_canRead`.  The engine handle
`m_handle` is opaque; its behaviour enters through the oracle arguments. -/
structure Statement where
  m_open : Bool
  m_canRead : Bool
deriving DecidableEq

/-- `Statement::step` (identical in both variants): `requireOpen()`, then one
`sqlite3_step` call whose result code is the oracle argument `engineResult`:
`SQLITE_ROW` sets `m_canRead := true` and returns true, `SQLITE_DONE` sets
`m_canRead := false` and returns false, anything else throws
`DatabaseError(engineResult)` leaving the fields untouched. -/
def Statement.step (s : Statement) (engineResult : Int) : Except Err Bool × Statement :=
  match requireOpen s.m_open "Statement" with
  | .error e => (.error e, s)
  | .ok _ =>
    if engineResult = SQLITE_ROW then (.ok true, { s with m_canRead := true })
    else if engineResult = SQLITE_DONE then (.ok false, { s with m_canRead := false })
    else (.error (.databaseError engineResult (sqlite3_errstr engineResult)), s)

/-- `Statement::reset` (identical in both variants): `requireOpen()`, then
`return sqlite3_reset(m_handle) == SQLITE_OK`.  Note that the source never
assigns `m_canRead` here. -/
def Statement.reset (s : Statement) (engineResult : Int) : Except Err Bool × Statement :=
  match requireOpen s.m_open "Statement" with
  | .error e => (.error e, s)
  | .ok _ => (.ok (engineResult = SQLITE_OK : Bool), s)

/-- `Statement::close` (named `finalize` in the `sqlitepp.cpp` variant, same
body): if open, call `sqlite3_finalize` ignoring its result
(`finalizeResult`), and set the open flag to false; otherwise do nothing.
Never throws. -/
def Statement.close (s : Statement) (finalizeResult : Int) : Statement :=
  if s.m_open then { s with m_open := false } else s

/-- `Statement::getParameterIndex`: `requireOpen()`, then
`sqlite3_bind_parameter_index` (oracle argument `engineIndex`, zero meaning
the engine found no parameter of that name) and `std::invalid_argument` on
zero. -/
def Statement.getParameterIndex (s : Statement) (name : String) (engineIndex : Int) :
    Except Err Int :=
  match requireOpen s.m_open "Statement" with
  | .error e => .error e
  | .ok _ =>
    if engineIndex = 0 then .error (.invalidArgument ("No such parameter: " ++ name))
    else .ok engineIndex

/-- `Statement::handleBindResult`: dispatch on the engine's bind result code.
(The C++ builds the out-of-range message with `"..." + index`, a pointer
offset rather than a concatenation; the message content is modelled only up to
its literal prefix.) -/
def Statement.handleBindResult (index : Int) (result : Int) : Except Err Unit :=
  if result = SQLITE_OK then .ok ()
  else if result = SQLITE_RANGE then .error (.outOfRange "Bind index out of range: ")
  else if result = SQLITE_NOMEM then .error (.runtimeError "No memory to bind parameter")
  else .error (.databaseError result (sqlite3_errstr result))

/-- `Statement::bind(index, value)` (all three value overloads have the same
shape): `requireOpen()`, then the engine bind call (whose result code is the
oracle argument `bindResult`) fed to `handleBindResult`.  No wrapper field is
mutated. -/
def Statement.bindIndex (s : Statement) (index : Int) (bindResult : Int) :
    Except Err Unit × Statement :=
  match requireOpen s.m_open "Statement" with
  | .error e => (.error e, s)
  | .ok _ => (Statement.handleBindResult index bindResult, s)

/-- `Statement::bind(name, value)`: `bind(getParameterIndex(name), value)`. -/
def Statement.bindName (s : Statement) (name : String) (engineIndex : Int)
    (bindResult : Int) : Except Err Unit × Statement :=
  match s.getParameterIndex name engineIndex with
  | .error e => (.error e, s)
  | .ok idx => s.bindIndex idx bindResult

/-- The shared-ownership cell for one Statement heap object
(`std::shared_ptr<Statement>` semantics): whether the object is still
allocated, its fields, and the number of live shared handles.  The weak
instance pointer set by `Database::prepare` is not counted. -/
structure StmtWorld where
  alive : Bool
  st : Statement
  refs : Nat
deriving DecidableEq

/-- The world right after a successful `Database::prepare`: the Statement is
constructed with `Openable(true, "Statement")` and `m_canRead(false)`, held by
exactly one `std::shared_ptr`, with its weak instance pointer set. -/
def preparedWorld : StmtWorld :=
  { alive := true, st := { m_open := true, m_canRead := false }, refs := 1 }

/-- Dropping one shared handle (a `std::shared_ptr` going out of scope): the
use count decreases; when the last handle is dropped the `~Statement`
destructor runs, finalizing the engine handle if still open, and the object is
deallocated. -/
def dropHandle (w : StmtWorld) : StmtWorld :=
  if w.refs ≤ 1 then
    { alive := false, st := { w.st with m_open := false }, refs := 0 }
  else
    { w with refs := w.refs - 1 }

/-- `Statement::execute` (sqlitepp.cc variant): one `step()` call, then a
`ResultSet` built from `m_instancePointer.lock()`, i.e. one more shared handle
to the same Statement object.  If the step throws, the exception propagates
before the ResultSet is constructed. -/
def Statement.execute (w : StmtWorld) (engineResult : Int) : Except Err Unit × StmtWorld :=
  match Statement.step w.st engineResult with
  | (.error e, st2) => (.error e, { w with st := st2 })
  | (.ok _, st2) => (.ok (), { w with st := st2, refs := w.refs + 1 })

/-- `ResultSet::canRead`: `return m_statement->m_canRead;` — no `requireOpen`,
no engine access, cannot throw. -/
def ResultSet.canRead (w : StmtWorld) : Bool :=
  w.st.m_canRead

/-- `Statement::requireCanRead`: throws `std::logic_error` when `m_canRead` is
false. -/
def requireCanRead (canRead : Bool) : Except Err Unit :=
  if canRead = false then .error (.logicError "Trying to read from statement without data")
  else .ok ()

/-- `ResultSet::columnCount`: `requireOpen`, `requireCanRead`, then the
engine's column count (oracle argument). -/
def ResultSet.columnCount (w : StmtWorld) (engineCount : Int) : Except Err Int :=
  match requireOpen w.st.m_open "Statement" with
  | .error e => .error e
  | .ok _ =>
    match requireCanRead w.st.m_canRead with
    | .error e => .error e
    | .ok _ => .ok engineCount

/-- `ResultSet::readInt` (and `Statement::readInt` in the sqlitepp.cpp
variant): `requireOpen`, `requireCanRead`, then `sqlite3_column_int` whose
value is the oracle argument. -/
def ResultSet.readInt (w : StmtWorld) (engineValue : Int) : Except Err Int :=
  match requireOpen w.st.m_open "Statement" with
  | .error e => .error e
  | .ok _ =>
    match requireCanRead w.st.m_canRead with
    | .error e => .error e
    | .ok _ => .ok engineValue

/-- `ResultSet::readDouble`: same guards, the engine's double passed through
(modelled as a rational, since no arithmetic is performed on it). -/
def ResultSet.readDouble (w : StmtWorld) (engineValue : Rat) : Except Err Rat :=
  match requireOpen w.st.m_open "Statement" with
  | .error e => .error e
  | .ok _ =>
    match requireCanRead w.st.m_canRead with
    | .error e => .error e
    | .ok _ => .ok engineValue

/-- Outcome of `std::string((const char*) sqlite3_column_text(...))`: a
defined string when the engine returned a non-null text pointer, and undefined
behaviour (no string value) when the pointer is null — the source performs no
null check. -/
inductive ReadStringOutcome where
  | value (s : String)
  | undefined
deriving DecidableEq

/-- `ResultSet::readString` (and `Statement::readString` in the sqlitepp.cpp
variant): `requireOpen`, `requireCanRead`, then the engine's raw text pointer
(`none` models a null pointer, which SQLite returns for a SQL NULL column)
passed directly to `std::string` construction. -/
def ResultSet.readString (w : StmtWorld) (engineText : Option String) :
    Except Err ReadStringOutcome :=
  match requireOpen w.st.m_open "Statement" with
  | .error e => .error e
  | .ok _ =>
    match requireCanRead w.st.m_canRead with
    | .error e => .error e
    | .ok _ =>
      match engineText with
      | some s => .ok (.value s)
      | none => .ok .undefined

/-- `ResultSet::next`: `return m_statement->step();` — exactly one step on the
shared Statement. -/
def ResultSet.next (w : StmtWorld) (engineResult : Int) : Except Err Bool × StmtWorld :=
  match Statement.step w.st engineResult with
  | (r, st2) => (r, { w with st := st2 })

/-- Closing the shared Statement through one aliasing handle: the shared
object's fields change, every other handle sees the update. -/
def StmtWorld.closeStmt (w : StmtWorld) (finalizeResult : Int) : StmtWorld :=
  { w with st := w.st.close finalizeResult }

/-- The wrapper-maintained field of a `sqlitepp::Database`: the `Openable`
flag.  The connection handle `m_handle` is opaque. -/
structure Database where
  m_open : Bool
deriving DecidableEq

/-- Engine calls `Database::open` can make, recorded in order so that the
release-before-throw behaviour is visible. -/
inductive EngineCall where
  | openCall
  | errmsgCall
  | closeCall
deriving DecidableEq

/-- The engine's response to one `sqlite3_open` call: whether a connection
object was allocated (`m_handle != NULL` afterwards), the result code, and the
`sqlite3_errmsg` text. -/
structure OpenResult where
  allocated : Bool
  result : Int
  errMsg : String
deriving DecidableEq

/-- `Database::open(file)` (identical in both variants): throw
`std::logic_error` if already open (before any engine call); otherwise
`sqlite3_open`; if the handle is null throw `std::runtime_error`; if the
result code is `SQLITE_OK` mark open; otherwise fetch `sqlite3_errmsg`, call
`sqlite3_close` on the partially-allocated connection, and throw
`DatabaseError(result, errorMessage)`.  The second component of the result is
the list of engine calls made, in order. -/
def Database.openDb (d : Database) (e : OpenResult) :
    (Except Err Unit × Database) × List EngineCall :=
  if d.m_open then
    ((.error (.logicError
        "sqlitepp::Database::open(std::string&): Database already open"), d), [])
  else if e.allocated = false then
    ((.error (.runtimeError
        "sqlitepp::Database::open(std::string&): Can\x27t allocate memory"), d),
     [.openCall])
  else if e.result = SQLITE_OK then
    ((.ok (), { d with m_open := true }), [.openCall])
  else
    ((.error (.databaseError e.result e.errMsg), d),
     [.openCall, .errmsgCall, .closeCall])

/-- `Database::close` (identical in both variants): no-op when closed;
otherwise `sqlite3_close`, marking closed on `SQLITE_OK` and throwing
`DatabaseError(result)` otherwise (leaving the open flag set). -/
def Database.close (d : Database) (closeResult : Int) : Except Err Unit × Database :=
  if d.m_open then
    if closeResult = SQLITE_OK then (.ok (), { d with m_open := false })
    else (.error (.databaseError closeResult (sqlite3_errstr closeResult)), d)
  else (.ok (), d)

/-- `~Database` in the sqlitepp.cc variant: if open, `sqlite3_close` ignoring
the result entirely, then mark closed.  No error can escape. -/
def Database.dtor (d : Database) (closeResult : Int) : Database :=
  if d.m_open then { d with m_open := false } else d

/-- Outcome of the sqlitepp.cpp variant's destructor: either destruction
completes normally, or the process is terminated by `std::abort`. -/
inductive DtorOutcome where
  | completed (d : Database)
  | aborted
deriving DecidableEq

/-- `~Database` in the sqlitepp.cpp variant: if open, `sqlite3_close`; on a
non-`SQLITE_OK` result it logs to `std::cerr` and calls `std::abort()`,
terminating the program; on success it marks closed. -/
def Database.dtorCpp (d : Database) (closeResult : Int) : DtorOutcome :=
  if d.m_open then
    if closeResult = SQLITE_OK then .completed { d with m_open := false }
    else .aborted
  else .completed d

/-- The engine's response to one `sqlite3_prepare_v2` call: result code,
whether a statement handle was produced, and the `sqlite3_errmsg` text. -/
structure PrepareResult where
  result : Int
  allocated : Bool
  errMsg : String
deriving DecidableEq

/-- `Database::prepare(sql)` (sqlitepp.cc variant): `requireOpen()`, then
`sqlite3_prepare_v2`; a non-`SQLITE_OK` result throws
`DatabaseError(result, errmsg)`; a null statement handle throws
`std::runtime_error`; otherwise a fresh Statement is allocated into a
`shared_ptr` and its weak instance pointer is set. -/
def Database.prepare (d : Database) (e : PrepareResult) :
    Except Err StmtWorld × Database :=
  match requireOpen d.m_open "Database" with
  | .error er => (.error er, d)
  | .ok _ =>
    if e.result = SQLITE_OK then
      if e.allocated = false then (.error (.runtimeError "Statement handle is NULL"), d)
      else (.ok preparedWorld, d)
    else (.error (.databaseError e.result e.errMsg), d)

/-- Claim C1: for every open Statement, step() has exactly three outcomes: a
`SQLITE_ROW` engine result sets canRead and returns true; a `SQLITE_DONE`
engine result clears canRead and returns false; any other engine result code
throws a database error carrying that code with the Statement's fields (open
flag and canRead) unchanged.  On a non-open Statement, step() throws the
invalid-state error for every possible engine result (i.e. without consulting
the engine). -/
theorem c1_step_trichotomy (s : Statement) (r : Int) (h : s.m_open = true) :
    Statement.step s SQLITE_ROW = (.ok true, { s with m_canRead := true }) ∧
    Statement.step s SQLITE_DONE = (.ok false, { s with m_canRead := false }) ∧
    (r ≠ SQLITE_ROW → r ≠ SQLITE_DONE →
      Statement.step s r = (.error (.databaseError r (sqlite3_errstr r)), s)) ∧
    (∀ s2 : Statement, s2.m_open = false → ∀ r2 : Int,
      Statement.step s2 r2 = (.error (.logicError "Statement is not open."), s2)) := by
  refine ⟨?_, ?_, ?_, ?_⟩
  · simp [Statement.step, requireOpen, h]
  · simp [Statement.step, requireOpen, h, SQLITE_ROW, SQLITE_DONE]
  · intro h1 h2
    simp [Statement.step, requireOpen, h, h1, h2]
  · intro s2 h2 r2
    simp [Statement.step, requireOpen, h2]

/-- Witness for C1: a concrete open Statement stepped with the engine
reporting `SQLITE_BUSY` throws a database error carrying that code, leaving
the state unchanged. -/
theorem c1_step_trichotomy_witness :
    Statement.step { m_open := true, m_canRead := false } SQLITE_BUSY =
      (.error (.databaseError SQLITE_BUSY (sqlite3_errstr SQLITE_BUSY)),
       { m_open := true, m_canRead := false }) :=
  (c1_step_trichotomy { m_open := true, m_canRead := false } SQLITE_BUSY rfl).2.2.1
    (by decide) (by decide)

/-- Claim C2 counterexample: reset() on an open Statement whose canRead flag
is true, with the engine reporting success, returns true but leaves canRead
equal to true — it does not transition the Statement to the no-row state, so
the claimed "on success it transitions to canRead() == false" is false. -/
theorem c2_reset_counterexample :
    Statement.reset { m_open := true, m_canRead := true } SQLITE_OK =
      (.ok true, { m_open := true, m_canRead := true }) := by
  rfl

/-- Claim C2 (amended): for every open Statement, reset() returns true exactly
when the engine reports the reset succeeded, and it leaves every field of the
Statement unchanged — the canRead flag stays stale on success and failure
alike; it does not throw on engine-reported failure; on a non-open Statement
it throws the invalid-state error. -/
theorem c2_reset_amended (s : Statement) (r : Int) (h : s.m_open = true) :
    Statement.reset s r = (.ok (decide (r = SQLITE_OK)), s) ∧
    ((Statement.reset s r).1 = .ok true ↔ r = SQLITE_OK) ∧
    (∀ s2 : Statement, s2.m_open = false → ∀ r2 : Int,
      Statement.reset s2 r2 = (.error (.logicError "Statement is not open."), s2)) := by
  refine ⟨?_, ?_, ?_⟩
  · simp [Statement.reset, requireOpen, h]
  · simp [Statement.reset, requireOpen, h]
  · intro s2 h2 r2
    simp [Statement.reset, requireOpen, h2]

/-- Witness for C2 (amended): on a concrete open Statement with a row
available, a successful engine reset returns true and leaves the whole state
— including the canRead flag — unchanged. -/
theorem c2_reset_amended_witness :
    Statement.reset { m_open := true, m_canRead := true } SQLITE_BUSY =
      (.ok false, { m_open := true, m_canRead := true }) := by
  have h := (c2_reset_amended { m_open := true, m_canRead := true } SQLITE_BUSY rfl).1
  simpa using h

/-- Claim C3: execute() performs exactly one step() (its post-state is step's
post-state and its thrown-or-ok outcome matches step's) and the ResultSet it
returns holds one more shared handle to the same Statement object;
ResultSet.next() is exactly one step() on that shared Statement; and after
execute() yields a row, dropping the caller's own Statement handle leaves the
object alive (the ResultSet's handle keeps it), with canRead still true and
reads succeeding. -/
theorem c3_execute_resultset (w : StmtWorld) (r v : Int)
    (ho : w.st.m_open = true) (ha : w.alive = true) (hr : 1 ≤ w.refs) :
    (ResultSet.next w r).1 = (Statement.step w.st r).1 ∧
    ((ResultSet.next w r).2).st = (Statement.step w.st r).2 ∧
    ((Statement.execute w r).2).st = (Statement.step w.st r).2 ∧
    (∀ e, (Statement.step w.st r).1 = .error e → (Statement.execute w r).1 = .error e) ∧
    (∀ b, (Statement.step w.st r).1 = .ok b → (Statement.execute w r).1 = .ok ()) ∧
    ((Statement.execute w r).1 = .ok () →
      ((Statement.execute w r).2).refs = w.refs + 1) ∧
    (dropHandle ((Statement.execute w SQLITE_ROW).2)).alive = true ∧
    (dropHandle ((Statement.execute w SQLITE_ROW).2)).st =
      { w.st with m_canRead := true } ∧
    ResultSet.canRead (dropHandle ((Statement.execute w SQLITE_ROW).2)) = true ∧
    ResultSet.readInt (dropHandle ((Statement.execute w SQLITE_ROW).2)) v = .ok v := by
  have hrow : Statement.step w.st SQLITE_ROW = (.ok true, { w.st with m_canRead := true }) := by
    simp [Statement.step, requireOpen, ho]
  have hexec : Statement.execute w SQLITE_ROW =
      (.ok (), { w with st := { w.st with m_canRead := true }, refs := w.refs + 1 }) := by
    simp [Statement.execute, hrow]
  have hnotle : ¬ (w.refs + 1 ≤ 1) := by omega
  have hdrop : dropHandle { w with st := { w.st with m_canRead := true }, refs := w.refs + 1 } =
      { w with st := { w.st with m_canRead := true }, refs := w.refs } := by
    simp [dropHandle, hnotle]
  have hdropE : dropHandle ((Statement.execute w SQLITE_ROW).2) =
      { w with st := { w.st with m_canRead := true }, refs := w.refs } := by
    rw [hexec]
    exact hdrop
  rcases hst : Statement.step w.st r with ⟨res, st2⟩
  refine ⟨?_, ?_, ?_, ?_, ?_, ?_, ?_, ?_, ?_, ?_⟩
  · simp [ResultSet.next, hst]
  · simp [ResultSet.next, hst]
  · cases res <;> simp [Statement.execute, hst]
  · intro e he
    cases res <;> simp_all [Statement.execute, hst]
  · intro b hb
    cases res <;> simp_all [Statement.execute, hst]
  · intro hok
    cases res <;> simp_all [Statement.execute, hst]
  · rw [hdropE]
    exact ha
  · rw [hdropE]
  · rw [hdropE]
    simp [ResultSet.canRead]
  · rw [hdropE]
    simp [ResultSet.readInt, requireOpen, requireCanRead, ho]

/-- Witness for C3: starting from the world of a freshly prepared Statement
(one shared handle), execute() with a row available, then dropping the
caller's handle, leaves the ResultSet able to read the engine's column value. -/
theorem c3_execute_resultset_witness :
    ResultSet.readInt (dropHandle ((Statement.execute preparedWorld SQLITE_ROW).2)) 7 =
      .ok 7 :=
  (c3_execute_resultset preparedWorld SQLITE_DONE 7 rfl rfl (by decide)).2.2.2.2.2.2.2.2.2

/-- Claim C4 counterexample: close a Statement (through one aliasing handle)
while its canRead flag is true; ResultSet::canRead through another alias then
returns the stale flag true and throws nothing — it does not raise the
invalid-state error the claim requires of every operation. -/
theorem c4_stale_alias_counterexample :
    ResultSet.canRead
      (StmtWorld.closeStmt
        { alive := true, st := { m_open := true, m_canRead := true }, refs := 2 }
        SQLITE_OK) = true := by
  rfl

/-- Claim C4 (amended): after the shared Statement has been explicitly
closed/finalized, columnCount, readInt, readDouble, readString and next
through an aliasing ResultSet all throw the standard invalid-state error
without consulting the engine (the outcome is the same for every engine
response), and next leaves the world unchanged; canRead, however, does not
throw: it returns the stale canRead flag (also without touching the engine
handle). -/
theorem c4_stale_alias_amended (w : StmtWorld) (v cnt r final : Int) (q : Rat)
    (t : Option String) (h : w.st.m_open = false) :
    ResultSet.canRead w = w.st.m_canRead ∧
    ResultSet.columnCount w cnt = .error (.logicError "Statement is not open.") ∧
    ResultSet.readInt w v = .error (.logicError "Statement is not open.") ∧
    ResultSet.readDouble w q = .error (.logicError "Statement is not open.") ∧
    ResultSet.readString w t = .error (.logicError "Statement is not open.") ∧
    (ResultSet.next w r).1 = .error (.logicError "Statement is not open.") ∧
    (ResultSet.next w r).2 = w ∧
    ((StmtWorld.closeStmt w final).st).m_open = false := by
  refine ⟨rfl, ?_, ?_, ?_, ?_, ?_, ?_, ?_⟩
  · simp [ResultSet.columnCount, requireOpen, h]
  · simp [ResultSet.readInt, requireOpen, h]
  · simp [ResultSet.readDouble, requireOpen, h]
  · simp [ResultSet.readString, requireOpen, h]
  · simp [ResultSet.next, Statement.step, requireOpen, h]
  · simp [ResultSet.next, Statement.step, requireOpen, h]
  · simp [StmtWorld.closeStmt, Statement.close, h]

/-- Witness for C4 (amended): concrete closed-but-stale world — readInt
through the alias throws the invalid-state error, canRead returns the stale
true. -/
theorem c4_stale_alias_amended_witness :
    ResultSet.readInt { alive := true, st := { m_open := false, m_canRead := true }, refs := 1 }
      3 = .error (.logicError "Statement is not open.") :=
  (c4_stale_alias_amended
    { alive := true, st := { m_open := false, m_canRead := true }, refs := 1 }
    3 0 0 0 0 none rfl).2.2.1

/-- Claim C5: Database.open throws the invalid-state error when already open,
making no engine call (the first connection's state is untouched); throws the
allocation error when the engine produced no connection object; on an engine
open failure it fetches the message, releases the partially-allocated
connection (the `closeCall` is in the trace, last before the throw), and
throws a database error carrying the engine's code and message; on success it
marks the Database open. -/
theorem c5_database_open (d : Database) (e : OpenResult) :
    (d.m_open = true →
      Database.openDb d e =
        ((.error (.logicError
            "sqlitepp::Database::open(std::string&): Database already open"), d), [])) ∧
    (d.m_open = false → e.allocated = false →
      Database.openDb d e =
        ((.error (.runtimeError
            "sqlitepp::Database::open(std::string&): Can\x27t allocate memory"), d),
         [.openCall])) ∧
    (d.m_open = false → e.allocated = true → e.result = SQLITE_OK →
      Database.openDb d e = ((.ok (), { m_open := true }), [.openCall])) ∧
    (d.m_open = false → e.allocated = true → e.result ≠ SQLITE_OK →
      Database.openDb d e =
        ((.error (.databaseError e.result e.errMsg), d),
         [.openCall, .errmsgCall, .closeCall])) := by
  refine ⟨?_, ?_, ?_, ?_⟩
  · intro h
    simp [Database.openDb, h]
  · intro h h2
    simp [Database.openDb, h, h2]
  · intro h h2 h3
    simp [Database.openDb, h, h2, h3]
  · intro h h2 h3
    simp [Database.openDb, h, h2, h3]

/-- Witness for C5: a concrete already-open Database rejects a second open
without an engine call, and a concrete closed Database whose engine open
allocates but fails with code 14 releases the connection (closeCall last in
the trace) and throws the database error carrying code 14 and the engine
message. -/
theorem c5_database_open_witness :
    Database.openDb { m_open := true } { allocated := true, result := 0, errMsg := "" } =
      ((.error (.logicError
          "sqlitepp::Database::open(std::string&): Database already open"),
        { m_open := true }), []) ∧
    Database.openDb { m_open := false }
        { allocated := true, result := 14, errMsg := "unable to open database file" } =
      ((.error (.databaseError 14 "unable to open database file"), { m_open := false }),
       [.openCall, .errmsgCall, .closeCall]) :=
  ⟨(c5_database_open { m_open := true }
      { allocated := true, result := 0, errMsg := "" }).1 rfl,
   (c5_database_open { m_open := false }
      { allocated := true, result := 14, errMsg := "unable to open database file" }).2.2.2
      rfl rfl (by decide)⟩

/-- Claim C6 counterexample: in the sqlitepp.cpp variant, destroying an open
Database whose engine close fails (code `SQLITE_BUSY`) aborts the process
instead of swallowing the error and completing destruction; the sqlitepp.cc
variant swallows it. -/
theorem c6_dtor_counterexample :
    Database.dtorCpp { m_open := true } SQLITE_BUSY = DtorOutcome.aborted ∧
    (Database.dtorCpp { m_open := true } SQLITE_BUSY ≠
      DtorOutcome.completed { m_open := false }) ∧
    Database.dtor { m_open := true } SQLITE_BUSY = { m_open := false } := by
  refine ⟨rfl, by decide, rfl⟩

/-- Claim C6 (amended): destruction closes the connection if still open and
never propagates an error value; in the sqlitepp/sqlitepp.cc variant any
engine error during the implicit close is swallowed (destruction always
completes with the Database marked closed); in the sqlitepp.cpp variant an
engine-reported close failure is logged and terminates the program via abort
rather than being swallowed — only a successful close (or an already-closed
Database) lets destruction complete. -/
theorem c6_dtor_amended (d : Database) (r : Int) :
    (Database.dtor d r).m_open = false ∧
    (d.m_open = false → Database.dtorCpp d r = .completed d) ∧
    (d.m_open = true → r = SQLITE_OK →
      Database.dtorCpp d r = .completed { m_open := false }) ∧
    (d.m_open = true → r ≠ SQLITE_OK → Database.dtorCpp d r = .aborted) := by
  refine ⟨?_, ?_, ?_, ?_⟩
  · by_cases h : d.m_open <;> simp [Database.dtor, h]
  · intro h
    simp [Database.dtorCpp, h]
  · intro h h2
    simp [Database.dtorCpp, h, h2]
  · intro h h2
    simp [Database.dtorCpp, h, h2]

/-- Witness for C6 (amended): a concrete open Database whose engine close
succeeds at destruction time completes destruction closed in both variants. -/
theorem c6_dtor_amended_witness :
    (Database.dtor { m_open := true } SQLITE_OK).m_open = false ∧
    Database.dtorCpp { m_open := true } SQLITE_OK =
      DtorOutcome.completed { m_open := false } :=
  ⟨(c6_dtor_amended { m_open := true } SQLITE_OK).1,
   (c6_dtor_amended { m_open := true } SQLITE_OK).2.2.1 rfl rfl⟩

/-- Claim C7: binding requires the open state (invalid-state error otherwise,
by index and by name alike); binding by name resolves the name through the
engine and throws invalid-argument when the engine finds no such parameter
(index zero), leaving the Statement's fields unchanged, and otherwise behaves
as binding by the resolved index; binding by index maps the engine's bind
result to: success — return normally, `SQLITE_RANGE` — out-of-range error,
`SQLITE_NOMEM` — allocation error, anything else — database error carrying
the engine code; no outcome mutates the wrapper's fields. -/
theorem c7_bind_errors (s : Statement) (name : String) (idx eIdx bres : Int)
    (h : s.m_open = true) :
    (∀ s2 : Statement, s2.m_open = false →
      Statement.bindIndex s2 idx bres =
        (.error (.logicError "Statement is not open."), s2) ∧
      Statement.bindName s2 name eIdx bres =
        (.error (.logicError "Statement is not open."), s2)) ∧
    (eIdx = 0 → Statement.bindName s name eIdx bres =
      (.error (.invalidArgument ("No such parameter: " ++ name)), s)) ∧
    (eIdx ≠ 0 → Statement.bindName s name eIdx bres = Statement.bindIndex s eIdx bres) ∧
    (bres = SQLITE_OK → Statement.bindIndex s idx bres = (.ok (), s)) ∧
    (bres = SQLITE_RANGE → Statement.bindIndex s idx bres =
      (.error (.outOfRange "Bind index out of range: "), s)) ∧
    (bres = SQLITE_NOMEM → Statement.bindIndex s idx bres =
      (.error (.runtimeError "No memory to bind parameter"), s)) ∧
    (bres ≠ SQLITE_OK → bres ≠ SQLITE_RANGE → bres ≠ SQLITE_NOMEM →
      Statement.bindIndex s idx bres =
        (.error (.databaseError bres (sqlite3_errstr bres)), s)) := by
  refine ⟨?_, ?_, ?_, ?_, ?_, ?_, ?_⟩
  · intro s2 h2
    constructor
    · simp [Statement.bindIndex, requireOpen, h2]
    · simp [Statement.bindName, Statement.getParameterIndex, requireOpen, h2]
  · intro h0
    simp [Statement.bindName, Statement.getParameterIndex, requireOpen, h, h0]
  · intro h0
    simp [Statement.bindName, Statement.getParameterIndex, requireOpen, h, h0]
  · intro hb
    simp [Statement.bindIndex, Statement.handleBindResult, requireOpen, h, hb]
  · intro hb
    simp [Statement.bindIndex, Statement.handleBindResult, requireOpen, h, hb,
      SQLITE_OK, SQLITE_RANGE]
  · intro hb
    simp [Statement.bindIndex, Statement.handleBindResult, requireOpen, h, hb,
      SQLITE_OK, SQLITE_RANGE, SQLITE_NOMEM]
  · intro h1 h2 h3
    simp [Statement.bindIndex, Statement.handleBindResult, requireOpen, h, h1, h2, h3]

/-- Witness for C7: on a concrete open Statement, binding a name the engine
does not know (resolved index zero) throws invalid-argument and leaves the
open and canRead flags unchanged. -/
theorem c7_bind_errors_witness :
    Statement.bindName { m_open := true, m_canRead := false } ":nope" 0 SQLITE_OK =
      (.error (.invalidArgument "No such parameter: :nope"),
       { m_open := true, m_canRead := false }) :=
  (c7_bind_errors { m_open := true, m_canRead := false } ":nope" 1 0 SQLITE_OK rfl).2.1 rfl

/-- Claim C8 counterexample: a first close() on an open Database whose engine
reports `SQLITE_BUSY` (e.g. outstanding unfinalized statements) throws a
database error and leaves the Database open — so close-twice on a Database can
raise, contrary to the claim's "never raises". -/
theorem c8_close_counterexample :
    (Database.close { m_open := true } SQLITE_BUSY).1 =
      .error (.databaseError SQLITE_BUSY (sqlite3_errstr SQLITE_BUSY)) ∧
    ((Database.close { m_open := true } SQLITE_BUSY).2).m_open = true := by
  exact ⟨rfl, rfl⟩

/-- Claim C8 (amended): for a Statement, close is allowed from any state,
never throws (it returns no error channel at all), ignores the engine's
finalize result, transitions to closed unconditionally, and a second close is
a no-op leaving it closed; for a Database, when the engine reports success on
the close of an open Database (or the Database is already closed) the close
returns normally and leaves it closed, and a second close never throws and
leaves it closed; but a close on an open Database whose engine close fails
throws a database error and leaves the Database open. -/
theorem c8_close_idempotent (s : Statement) (d : Database) (f1 f2 r r2 : Int) :
    (Statement.close s f1).m_open = false ∧
    Statement.close (Statement.close s f1) f2 = Statement.close s f1 ∧
    (s.m_open = false → Statement.close s f1 = s) ∧
    (Database.close d SQLITE_OK).1 = .ok () ∧
    ((Database.close d SQLITE_OK).2).m_open = false ∧
    Database.close ((Database.close d SQLITE_OK).2) r2 =
      (.ok (), (Database.close d SQLITE_OK).2) ∧
    (d.m_open = true → r ≠ SQLITE_OK →
      Database.close d r = (.error (.databaseError r (sqlite3_errstr r)), d)) := by
  have hs1 : (Statement.close s f1).m_open = false := by
    by_cases h : s.m_open <;> simp [Statement.close, h]
  have hd1 : Database.close d SQLITE_OK = (.ok (), { m_open := false }) := by
    by_cases h : d.m_open
    · simp [Database.close, h]
    · have : d = { m_open := false } := by
        cases d
        simp_all
      simp [Database.close, h, this]
  have hnoop : ∀ (t : Statement) (f : Int), t.m_open = false → Statement.close t f = t := by
    intro t f h
    simp [Statement.close, h]
  refine ⟨hs1, hnoop (Statement.close s f1) f2 hs1, ?_, ?_, ?_, ?_, ?_⟩
  · intro h
    exact hnoop s f1 h
  · simp [hd1]
  · simp [hd1]
  · rw [hd1]
    simp [Database.close]
  · intro h h2
    simp [Database.close, h, h2]

/-- Witness for C8 (amended): closing a concrete open Statement twice leaves
it closed both times; closing a concrete open Database with the engine
reporting success, then closing again, returns normally and leaves it closed
both times. -/
theorem c8_close_idempotent_witness :
    Statement.close (Statement.close { m_open := true, m_canRead := true } SQLITE_BUSY)
        SQLITE_OK =
      Statement.close { m_open := true, m_canRead := true } SQLITE_BUSY ∧
    Database.close ((Database.close { m_open := true } SQLITE_OK).2) SQLITE_BUSY =
      (.ok (), (Database.close { m_open := true } SQLITE_OK).2) :=
  ⟨(c8_close_idempotent { m_open := true, m_canRead := true } { m_open := true }
      SQLITE_BUSY SQLITE_OK 0 SQLITE_BUSY).2.1,
   (c8_close_idempotent { m_open := true, m_canRead := true } { m_open := true }
      SQLITE_BUSY SQLITE_OK 0 SQLITE_BUSY).2.2.2.2.2.1⟩

/-- Claim C9: a Statement freshly returned by a successful Database.prepare is
open with canRead false; a step() yielding a row sets canRead true; a step()
yielding done sets canRead false; and every read operation (readInt,
readDouble, readString, columnCount) on an open Statement whose canRead flag
is false throws the invalid-state error "no data to read", for every possible
engine response (i.e. without consulting the engine). -/
theorem c9_fresh_statement_lifecycle (d : Database) (e : PrepareResult) (w : StmtWorld)
    (v cnt : Int) (q : Rat) (t : Option String)
    (hd : d.m_open = true) (he : e.result = SQLITE_OK) (ha : e.allocated = true)
    (hw : w.st.m_open = true) (hcr : w.st.m_canRead = false) :
    Database.prepare d e = (.ok preparedWorld, d) ∧
    preparedWorld.st.m_open = true ∧
    preparedWorld.st.m_canRead = false ∧
    ((Statement.step w.st SQLITE_ROW).2).m_canRead = true ∧
    ((Statement.step w.st SQLITE_DONE).2).m_canRead = false ∧
    ResultSet.readInt w v =
      .error (.logicError "Trying to read from statement without data") ∧
    ResultSet.readDouble w q =
      .error (.logicError "Trying to read from statement without data") ∧
    ResultSet.readString w t =
      .error (.logicError "Trying to read from statement without data") ∧
    ResultSet.columnCount w cnt =
      .error (.logicError "Trying to read from statement without data") := by
  refine ⟨?_, rfl, rfl, ?_, ?_, ?_, ?_, ?_, ?_⟩
  · simp [Database.prepare, requireOpen, hd, he, ha]
  · simp [Statement.step, requireOpen, hw]
  · simp [Statement.step, requireOpen, hw, SQLITE_ROW, SQLITE_DONE]
  · simp [ResultSet.readInt, requireOpen, requireCanRead, hw, hcr]
  · simp [ResultSet.readDouble, requireOpen, requireCanRead, hw, hcr]
  · simp [ResultSet.readString, requireOpen, requireCanRead, hw, hcr]
  · simp [ResultSet.columnCount, requireOpen, requireCanRead, hw, hcr]

/-- Witness for C9: a concrete open Database with a successful engine prepare
yields the fresh open, no-row Statement world, and readInt on that fresh world
throws the no-data invalid-state error. -/
theorem c9_fresh_statement_lifecycle_witness :
    Database.prepare { m_open := true } { result := 0, allocated := true, errMsg := "" } =
      (.ok preparedWorld, { m_open := true }) ∧
    ResultSet.readInt preparedWorld 5 =
      .error (.logicError "Trying to read from statement without data") :=
  ⟨(c9_fresh_statement_lifecycle { m_open := true }
      { result := 0, allocated := true, errMsg := "" } preparedWorld 5 0 0 none
      rfl rfl rfl rfl rfl).1,
   (c9_fresh_statement_lifecycle { m_open := true }
      { result := 0, allocated := true, errMsg := "" } preparedWorld 5 0 0 none
      rfl rfl rfl rfl rfl).2.2.2.2.2.1⟩

/-- Claim C10: on a readable row, readString passes the engine's raw text
pointer straight to string construction with no null check, so a null pointer
(SQLite's result for a SQL NULL column) yields no string value (undefined
construction) — and only a null pointer does; a non-null pointer yields
exactly that text; readInt and readDouble by contrast return a value for every
engine-supplied input. -/
theorem c10_readString_null_pointer (w : StmtWorld) (v : Int) (q : Rat) (str : String)
    (ho : w.st.m_open = true) (hc : w.st.m_canRead = true) :
    ResultSet.readString w none = .ok ReadStringOutcome.undefined ∧
    (∀ os : Option String,
      ResultSet.readString w os = .ok ReadStringOutcome.undefined → os = none) ∧
    ResultSet.readString w (some str) = .ok (ReadStringOutcome.value str) ∧
    ResultSet.readInt w v = .ok v ∧
    ResultSet.readDouble w q = .ok q := by
  refine ⟨?_, ?_, ?_, ?_, ?_⟩
  · simp [ResultSet.readString, requireOpen, requireCanRead, ho, hc]
  · intro os hos
    cases os with
    | none => rfl
    | some s =>
      simp [ResultSet.readString, requireOpen, requireCanRead, ho, hc] at hos
  · simp [ResultSet.readString, requireOpen, requireCanRead, ho, hc]
  · simp [ResultSet.readInt, requireOpen, requireCanRead, ho, hc]
  · simp [ResultSet.readDouble, requireOpen, requireCanRead, ho, hc]

/-- Witness for C10: on a concrete open, readable world, a null engine text
pointer produces the undefined outcome while the integer read returns the
engine's value. -/
theorem c10_readString_null_pointer_witness :
    ResultSet.readString
        { alive := true, st := { m_open := true, m_canRead := true }, refs := 1 } none =
      .ok ReadStringOutcome.undefined ∧
    ResultSet.readInt
        { alive := true, st := { m_open := true, m_canRead := true }, refs := 1 } 42 =
      .ok 42 :=
  ⟨(c10_readString_null_pointer
      { alive := true, st := { m_open := true, m_canRead := true }, refs := 1 }
      42 0 "x" rfl rfl).1,
   (c10_readString_null_pointer
      { alive := true, st := { m_open := true, m_canRead := true }, refs := 1 }
      42 0 "x" rfl rfl).2.2.2.1⟩

end Sqlitepp
